import Mathlib

/-!
Verification of the Northern Powergrid power-cuts integration.

The development shallowly embeds the pure logic of
`custom_components/northern_powergrid_power_cuts/sensor.py` and
`config_flow.py`: postcode normalization and filtering inside
`PowerCutDataUpdateCoordinator`, the sensors' `state` and `available`
properties, and the config-flow postcode validation.  Network and JSON
decoding are abstracted as an explicit fetch outcome fed to the update
step; the host framework (scheduling, entity registration) is out of
scope, as the specification's non-goals state.
-/

namespace NPG

/-- A single JSON record of the upstream payload, restricted to the
fields the integration reads via `dict.get`.  A field equal to `none`
models both a missing key and a JSON `null` (Python `get` returns `None`
in both cases). -/
structure Record where
  Reference : Option String := none
  Postcode : Option String := none
  TotalConfirmedPowerCut : Option Int := none
  CustomerStageSequenceMessage : Option String := none
  Reason : Option String := none
  NatureOfOutage : Option String := none
  LoggedTime : Option String := none
  EstimatedTimeTillResolution : Option String := none
deriving DecidableEq, Repr

/-- Python `str.upper()` (ASCII model, sufficient for postcodes). -/
def pyUpper (s : String) : String := String.mk (s.data.map Char.toUpper)

/-- Python `str.replace(" ", "")`: removal of every space character. -/
def pyRemoveSpaces (s : String) : String :=
  String.mk (s.data.filter (fun c => c ≠ ' '))

/-- The normalization `postcode.upper().replace(" ", "")` applied by both
`PowerCutDataUpdateCoordinator.__init__` and the config flow. -/
def pyNormalize (s : String) : String := pyRemoveSpaces (pyUpper s)

/-- The body of the `for power_cut in data:` loop of
`_async_update_data`: a record is appended iff `power_cut.get("Postcode")`
is truthy (present and non-empty) and the coordinator's normalized
postcode `P` occurs as a substring (Python `in`) of the record's
normalized postcode. -/
def recordMatches (P : String) (r : Record) : Bool :=
  match r.Postcode with
  | none => false
  | some s =>
    if s = "" then false
    else decide (P.data <:+: (pyNormalize s).data)

/-- The filtering loop of `_async_update_data`: start from an empty
`filtered_data` list and append every matching record in payload order. -/
def coordFilter (P : String) (data : List Record) : List Record :=
  data.foldl (fun acc r => if recordMatches P r then acc ++ [r] else acc) []

/-- Mutable state of `PowerCutDataUpdateCoordinator` relevant to the
claims: the normalized postcode set in `__init__` and the
`_last_known_data` cache. -/
structure Coordinator where
  postcode : String
  lastKnownData : List Record
deriving DecidableEq, Repr

/-- Model of `PowerCutDataUpdateCoordinator.__init__`: normalizes the configured
postcode and initializes `_last_known_data` to the empty list. -/
def coordinatorInit (postcode : String) : Coordinator :=
  { postcode := pyNormalize postcode, lastKnownData := [] }

/-- The exceptions `_async_update_data` can observe before the filtered
result is assigned: the tuple `(TimeoutError, aiohttp.ClientError,
json.JSONDecodeError)` of the first handler, and any other `Exception`
for the second handler.  Each carries the interpolated message text. -/
inductive FetchError where
  | timeoutError (msg : String)
  | clientError (msg : String)
  | jsonDecodeError (msg : String)
  | unexpectedError (msg : String)
deriving DecidableEq, Repr

/-- Outcome of `session.get` + `response.text()` + `json.loads` inside
the `try` block: either the decoded JSON array, or an exception raised
before the filter loop completes. -/
inductive FetchOutcome where
  | success (data : List Record)
  | failure (e : FetchError)
deriving DecidableEq, Repr

/-- The message attached to the `UpdateFailed` signal by each `except`
handler of `_async_update_data`. -/
def failureMsg : FetchError → String
  | .timeoutError m => "Error communicating with API: " ++ m
  | .clientError m => "Error communicating with API: " ++ m
  | .jsonDecodeError m => "Error communicating with API: " ++ m
  | .unexpectedError m => "Unexpected error: " ++ m

/-- One cycle of `PowerCutDataUpdateCoordinator._async_update_data`,
given the fetch outcome: on success the payload is filtered, the result
is stored in `_last_known_data` and returned; on any exception the state
is untouched and a single `UpdateFailed` (modelled as `Except.error`
carrying its message) is raised. -/
def asyncUpdateData (co : Coordinator) (outcome : FetchOutcome) :
    Coordinator × Except String (List Record) :=
  match outcome with
  | .success raw =>
    let filtered := coordFilter co.postcode raw
    ({ co with lastKnownData := filtered }, Except.ok filtered)
  | .failure e => (co, Except.error (failureMsg e))

/-- Truthiness (Python)  of `self.coordinator.data` (the coordinator's last
successful result, `None` before any success). -/
def listTruthy : Option (List Record) → Bool
  | none => false
  | some l => !l.isEmpty

/-- Model of `PowerCutBaseSensor.available`: when the sensor has a power-cut index
and `coordinator.data` is truthy, availability requires the index to be
in range and the last update to have succeeded; otherwise it is exactly
the `last_update_success` flag. -/
def PowerCutBaseSensor.available (data : Option (List Record))
    (success : Bool) : Option Nat → Bool
  | some i =>
    if listTruthy data then
      decide (i < (data.getD []).length) && success
    else success
  | none => success

/-- The guard `not self.coordinator.data or len(self.coordinator.data)
<= self._power_cut_index` shared by every per-index `state` property,
followed by the indexing `self.coordinator.data[self._power_cut_index]`:
returns the record at index `i` when the guard passes. -/
def currentRecord (data : Option (List Record)) (i : Nat) : Option Record :=
  match data with
  | none => none
  | some l => if l.isEmpty ∨ l.length ≤ i then none else some (l.getD i {})

/-- Model of `PowerCutCountSensor.state`: `"0"` for falsy data, else `str(len(data))`. -/
def PowerCutCountSensor.state (data : Option (List Record)) : String :=
  match data with
  | none => "0"
  | some l => if l.isEmpty then "0" else Nat.repr l.length

/-- Model of `PowerCutReferenceSensor.state`. -/
def PowerCutReferenceSensor.state (data : Option (List Record)) (i : Nat) :
    Option String :=
  match currentRecord data i with
  | none => none
  | some r => r.Reference

/-- Model of `PowerCutAffectedCustomersSensor.state`. -/
def PowerCutAffectedCustomersSensor.state (data : Option (List Record))
    (i : Nat) : Option Int :=
  match currentRecord data i with
  | none => none
  | some r => r.TotalConfirmedPowerCut

/-- Model of `PowerCutStatusSensor.state`. -/
def PowerCutStatusSensor.state (data : Option (List Record)) (i : Nat) :
    Option String :=
  match currentRecord data i with
  | none => none
  | some r => r.CustomerStageSequenceMessage

/-- Model of `PowerCutReasonSensor.state`. -/
def PowerCutReasonSensor.state (data : Option (List Record)) (i : Nat) :
    Option String :=
  match currentRecord data i with
  | none => none
  | some r => r.Reason

/-- Model of `PowerCutNatureSensor.state`. -/
def PowerCutNatureSensor.state (data : Option (List Record)) (i : Nat) :
    Option String :=
  match currentRecord data i with
  | none => none
  | some r => r.NatureOfOutage

/-- Value of a decimal digit character, `none` otherwise. -/
def digitVal (c : Char) : Option Nat :=
  if c.isDigit then some (c.toNat - 48) else none

/-- Naive `datetime` value as produced by `datetime.fromisoformat`:
calendar fields plus an optional UTC offset in minutes (`none` models a
timezone-naive value). -/
structure PyDateTime where
  year : Nat
  month : Nat
  day : Nat
  hour : Nat
  minute : Nat
  second : Nat
  utcOffsetMinutes : Option Int
deriving DecidableEq, Repr

/-- Two decimal digits, returning the value and the remaining input. -/
def parse2 : List Char → Option (Nat × List Char)
  | a :: b :: rest =>
    match digitVal a, digitVal b with
    | some x, some y => some (10 * x + y, rest)
    | _, _ => none
  | _ => none

/-- Four decimal digits, returning the value and the remaining input. -/
def parse4 : List Char → Option (Nat × List Char)
  | a :: b :: c :: d :: rest =>
    match digitVal a, digitVal b, digitVal c, digitVal d with
    | some w, some x, some y, some z =>
      some (1000 * w + 100 * x + 10 * y + z, rest)
    | _, _, _, _ => none
  | _ => none

/-- Trailing UTC-offset part `±HH:MM` of an ISO-8601 timestamp, or the
end of input for a naive timestamp; anything else is a parse error. -/
def parseOffset : List Char → Option (Option Int)
  | [] => some none
  | sign :: rest =>
    if sign = '+' ∨ sign = '-' then
      match parse2 rest with
      | some (h, ':' :: rest2) =>
        match parse2 rest2 with
        | some (m, []) =>
          if h ≤ 23 ∧ m ≤ 59 then
            some (some (if sign = '-' then -(h * 60 + m : Int) else (h * 60 + m : Int)))
          else none
        | _ => none
      | _ => none
    else none

/-- Gregorian leap-year rule used by `datetime` for date validation. -/
def isLeapYear (y : Nat) : Bool :=
  y % 4 = 0 && (y % 100 ≠ 0 || y % 400 = 0)

/-- Number of days of month `m` in year `y`. -/
def daysInMonth (y m : Nat) : Nat :=
  if m = 2 then (if isLeapYear y then 29 else 28)
  else if m = 4 ∨ m = 6 ∨ m = 9 ∨ m = 11 then 30 else 31

/-- Model of CPython's `datetime.fromisoformat`, restricted to the
canonical grammar `YYYY-MM-DD[T| ]HH:MM:SS[±HH:MM]` actually produced by
the upstream API (after the sensor's `Z` replacement); the field-range
validation matches `datetime`'s.  `none` models the `ValueError` the
sensors catch. -/
def fromisoformat (s : String) : Option PyDateTime :=
  match parse4 s.data with
  | some (y, '-' :: r1) =>
    match parse2 r1 with
    | some (mo, '-' :: r2) =>
      match parse2 r2 with
      | some (d, sep :: r3) =>
        if sep = 'T' ∨ sep = ' ' then
          match parse2 r3 with
          | some (h, ':' :: r4) =>
            match parse2 r4 with
            | some (mi, ':' :: r5) =>
              match parse2 r5 with
              | some (sec, r6) =>
                match parseOffset r6 with
                | some off =>
                  if 1 ≤ y ∧ 1 ≤ mo ∧ mo ≤ 12 ∧ 1 ≤ d ∧ d ≤ daysInMonth y mo ∧
                      h ≤ 23 ∧ mi ≤ 59 ∧ sec ≤ 59 then
                    some ⟨y, mo, d, h, mi, sec, off⟩
                  else none
                | none => none
              | _ => none
            | _ => none
          | _ => none
        else none
      | _ => none
    | _ => none
  | _ => none

/-- Decimal rendering padded to two digits. -/
def pad2 (n : Nat) : String :=
  if n < 10 then "0" ++ Nat.repr n else Nat.repr n

/-- Decimal rendering padded to four digits (years are at most 9999). -/
def pad4 (n : Nat) : String :=
  if n < 10 then "000" ++ Nat.repr n
  else if n < 100 then "00" ++ Nat.repr n
  else if n < 1000 then "0" ++ Nat.repr n
  else Nat.repr n

/-- Model of `datetime.isoformat()` for second-precision values: the
normalized `YYYY-MM-DDTHH:MM:SS` string followed by `±HH:MM` when the
value carries a UTC offset. -/
def PyDateTime.isoformat (dt : PyDateTime) : String :=
  pad4 dt.year ++ "-" ++ pad2 dt.month ++ "-" ++ pad2 dt.day ++ "T" ++
    pad2 dt.hour ++ ":" ++ pad2 dt.minute ++ ":" ++ pad2 dt.second ++
    match dt.utcOffsetMinutes with
    | none => ""
    | some off =>
      (if off < 0 then "-" else "+") ++
        pad2 (off.natAbs / 60) ++ ":" ++ pad2 (off.natAbs % 60)

/-- Python `time_str.replace("Z", "+00:00")`: every occurrence of the
single-character pattern `Z` becomes `+00:00`. -/
def replaceZ : List Char → List Char
  | [] => []
  | c :: rest =>
    if c = 'Z' then '+' :: '0' :: '0' :: ':' :: '0' :: '0' :: replaceZ rest
    else c :: replaceZ rest

/-- Shared tail of the two timestamp sensors' `state` properties: `if
not time_str: return None`, then `datetime.fromisoformat(
time_str.replace("Z", "+00:00")).isoformat()` with `ValueError` (and
`TypeError`) mapped to `None`. -/
def parseEmit : Option String → Option String
  | none => none
  | some ts =>
    if ts = "" then none
    else
      match fromisoformat (String.mk (replaceZ ts.data)) with
      | none => none
      | some dt => some dt.isoformat

/-- Model of `PowerCutStartTimeSensor.state`: the bounds guard, then
`parseEmit` of the record's `LoggedTime`. -/
def PowerCutStartTimeSensor.state (data : Option (List Record)) (i : Nat) :
    Option String :=
  match currentRecord data i with
  | none => none
  | some r => parseEmit r.LoggedTime

/-- Model of `PowerCutEstimatedRestorationSensor.state`: the bounds
guard, then `parseEmit` of the record's `EstimatedTimeTillResolution`. -/
def PowerCutEstimatedRestorationSensor.state (data : Option (List Record))
    (i : Nat) : Option String :=
  match currentRecord data i with
  | none => none
  | some r => parseEmit r.EstimatedTimeTillResolution

/-- The sort key `lambda x: x.get("LoggedTime", "")` of the latest-event
sensor. -/
def loggedKey (r : Record) : String := r.LoggedTime.getD ""

/-- Strict Python string comparison `key(x) > key(best)` used by `max`:
lexicographic comparison of the code-point sequences. -/
def keyLt (a b : Record) : Prop := (loggedKey a).data < (loggedKey b).data

instance (a b : Record) : Decidable (keyLt a b) := by
  unfold keyLt; infer_instance

/-- Python `max(x :: xs, key=...)`: scan the list keeping the current
maximum, replacing it only on a strictly greater key (so the first
maximal element wins ties). -/
def pyMaxByLoggedTime (x : Record) (xs : List Record) : Record :=
  xs.foldl (fun best r => if keyLt best r then r else best) x

/-- Model of `LatestPowerCutEventSensor.state`: `None` for an empty
`last_known_data`, else the `Reference` of the `max` by `LoggedTime`. -/
def LatestPowerCutEventSensor.state (lastKnown : List Record) : Option String :=
  match lastKnown with
  | [] => none
  | x :: xs => (pyMaxByLoggedTime x xs).Reference

/-- Model of `LatestPowerCutEventSensor.available`:
`bool(self.coordinator.last_known_data)`. -/
def LatestPowerCutEventSensor.available (lastKnown : List Record) : Bool :=
  !lastKnown.isEmpty

/-- Constant `MIN_POSTCODE_LENGTH` of `config_flow.py`. -/
def MIN_POSTCODE_LENGTH : Nat := 5

/-- Constant `MAX_POSTCODE_LENGTH` of `config_flow.py`. -/
def MAX_POSTCODE_LENGTH : Nat := 7

/-- Outcome of the reachability probe `session.get(API_ENDPOINT)` in
`async_step_user`: a response with its HTTP status, or one of the caught
exception classes. -/
inductive ProbeOutcome where
  | response (status : Nat)
  | clientError
  | timeoutError
  | unexpectedError
deriving DecidableEq, Repr

/-- Error dictionary produced by `NorthernPowergridFlowHandler.
async_step_user` for a submitted postcode: the field-scoped
`invalid_postcode` entry when the normalized length is out of range,
otherwise the probe's general errors (empty when the entry is created). -/
def asyncStepUserErrors (input : String) (probe : ProbeOutcome) :
    List (String × String) :=
  let postcode := pyNormalize input
  if postcode.length < MIN_POSTCODE_LENGTH ∨ MAX_POSTCODE_LENGTH < postcode.length then
    [("postcode", "invalid_postcode")]
  else
    match probe with
    | .response status => if status ≠ 200 then [("base", "cannot_connect")] else []
    | .clientError => [("base", "cannot_connect")]
    | .timeoutError => [("base", "cannot_connect")]
    | .unexpectedError => [("base", "unknown")]

/-- Sample record carrying the specification's round-trip timestamp in
both timestamp fields. -/
def recZ : Record :=
  { Reference := some "RZ",
    Postcode := some "NE1 1AA",
    LoggedTime := some "2024-01-01T10:00:00Z",
    EstimatedTimeTillResolution := some "2024-01-01T10:00:00Z" }

/-- Predicate of claim C1 read literally from the specification: the
record's `Postcode` is present and its normalization contains `P` as a
substring, with no requirement that the raw field be non-empty. -/
def claimKeep (P : String) (r : Record) : Prop :=
  ∃ s, r.Postcode = some s ∧ P.data <:+: (pyNormalize s).data

instance (P : String) (r : Record) : Decidable (claimKeep P r) :=
  match h : r.Postcode with
  | none => isFalse (by simp [claimKeep, h])
  | some s =>
    decidable_of_iff (P.data <:+: (pyNormalize s).data) (by simp [claimKeep, h])

/-- Specification predicate amended by the code's truthiness guard: the
record's raw `Postcode` must additionally be non-empty. -/
def specKeep (P : String) (r : Record) : Prop :=
  ∃ s, r.Postcode = some s ∧ s ≠ "" ∧ P.data <:+: (pyNormalize s).data

instance (P : String) (r : Record) : Decidable (specKeep P r) :=
  match h : r.Postcode with
  | none => isFalse (by simp [specKeep, h])
  | some s =>
    decidable_of_iff (s ≠ "" ∧ P.data <:+: (pyNormalize s).data)
      (by simp [specKeep, h])

/-- Accumulator form of the filtering loop: folding from `acc` appends
the filtered records after `acc`. -/
theorem coordFilter_go (P : String) (data : List Record) : ∀ acc : List Record,
    data.foldl (fun acc r => if recordMatches P r then acc ++ [r] else acc) acc
      = acc ++ data.filter (recordMatches P) := by
  induction data with
  | nil => intro acc; simp
  | cons x xs ih =>
    intro acc
    by_cases hx : recordMatches P x <;>
      simp [List.filter_cons, hx, ih]

/-- The append-style loop of `_async_update_data` computes an ordinary
order-preserving filter. -/
theorem coordFilter_eq_filter (P : String) (data : List Record) :
    coordFilter P data = data.filter (recordMatches P) := by
  simpa using coordFilter_go P data []

/-- Pointwise agreement of the loop guard with the amended
specification predicate. -/
theorem recordMatches_eq_specKeep (P : String) (r : Record) :
    recordMatches P r = decide (specKeep P r) := by
  cases hpc : r.Postcode with
  | none =>
    have hns : ¬ specKeep P r := by simp [specKeep, hpc]
    simp [recordMatches, hpc, hns]
  | some s =>
    by_cases hs : s = ""
    · subst hs
      have hns : ¬ specKeep P r := by simp [specKeep, hpc]
      simp [recordMatches, hpc, hns]
    · by_cases hin : P.data <:+: (pyNormalize s).data
      · have hks : specKeep P r := ⟨s, hpc, hs, hin⟩
        simp [recordMatches, hpc, hs, hin, hks]
      · have hns : ¬ specKeep P r := by
          rintro ⟨t, ht, hts, htin⟩
          rw [hpc] at ht
          injection ht with ht
          subst ht
          exact hin htin
        simp [recordMatches, hpc, hs, hin, hns]

/-- The scan of Python `max` returns an element of the scanned list. -/
theorem pyMaxBy_mem (x : Record) (xs : List Record) :
    pyMaxByLoggedTime x xs ∈ x :: xs := by
  induction xs generalizing x with
  | nil => simp [pyMaxByLoggedTime]
  | cons y ys ih =>
    have hstep : pyMaxByLoggedTime x (y :: ys)
        = pyMaxByLoggedTime (if keyLt x y then y else x) ys := rfl
    rw [hstep]
    by_cases h : keyLt x y
    · rcases List.mem_cons.mp (ih y) with h1 | h1 <;>
        simp [h, h1, List.mem_cons]
    · rcases List.mem_cons.mp (ih x) with h1 | h1 <;>
        simp [h, h1, List.mem_cons]

/-- No scanned element has a key strictly above the scan's result. -/
theorem pyMaxBy_not_lt (x : Record) (xs : List Record) :
    ∀ s ∈ x :: xs, ¬ keyLt (pyMaxByLoggedTime x xs) s := by
  induction xs generalizing x with
  | nil =>
    intro s hs
    rw [List.mem_singleton] at hs
    subst hs
    simp [pyMaxByLoggedTime, keyLt]
  | cons y ys ih =>
    intro s hs
    have hstep : pyMaxByLoggedTime x (y :: ys)
        = pyMaxByLoggedTime (if keyLt x y then y else x) ys := rfl
    rw [hstep]
    by_cases h : keyLt x y
    · rw [if_pos h]
      have hseed := ih y
      have hres := hseed y (List.mem_cons_self _ _)
      rcases List.mem_cons.mp hs with h1 | hs2
      · rw [h1]
        have hxy : (loggedKey x).data < (loggedKey y).data := h
        have hyr : (loggedKey y).data
            ≤ (loggedKey (pyMaxByLoggedTime y ys)).data := not_lt.mp hres
        exact not_lt.mpr (le_of_lt (lt_of_lt_of_le hxy hyr))
      · rcases List.mem_cons.mp hs2 with h1 | hs3
        · rw [h1]; exact hres
        · exact hseed s (List.mem_cons_of_mem _ hs3)
    · rw [if_neg h]
      have hseed := ih x
      have hres := hseed x (List.mem_cons_self _ _)
      rcases List.mem_cons.mp hs with h1 | hs2
      · rw [h1]; exact hres
      · rcases List.mem_cons.mp hs2 with h1 | hs3
        · rw [h1]
          have hyx : (loggedKey y).data ≤ (loggedKey x).data := not_lt.mp h
          have hxr : (loggedKey x).data
              ≤ (loggedKey (pyMaxByLoggedTime x ys)).data := not_lt.mp hres
          exact not_lt.mpr (le_trans hyx hxr)
        · exact hseed s (List.mem_cons_of_mem _ hs3)

/-- An in-range index passes the shared per-index guard. -/
theorem currentRecord_in_bounds (l : List Record) (i : Nat) (h : i < l.length) :
    currentRecord (some l) i = some (l.getD i {}) := by
  have hne : l.isEmpty = false := by
    cases l with
    | nil => simp at h
    | cons a t => rfl
  have hlen : ¬ l.length ≤ i := not_le.mpr h
  simp [currentRecord, hne, hlen]

/-- An out-of-range index (with an absent set counting as length zero)
fails the shared per-index guard. -/
theorem currentRecord_out_of_bounds (data : Option (List Record)) (i : Nat)
    (h : (data.getD []).length ≤ i) : currentRecord data i = none := by
  cases data with
  | none => rfl
  | some l =>
    have hcond : l.isEmpty = true ∨ l.length ≤ i := Or.inr h
    simp only [currentRecord]
    rw [if_pos hcond]

/-- One unfolding step of `Nat.toDigitsCore` at positive fuel. -/
theorem toDigitsCore_succ (b fuel n : Nat) (ds : List Char) :
    Nat.toDigitsCore b (fuel + 1) n ds =
      if n / b = 0 then Nat.digitChar (n % b) :: ds
      else Nat.toDigitsCore b fuel (n / b) (Nat.digitChar (n % b) :: ds) := rfl

/-- With positive fuel, the digit accumulator of `Nat.toDigitsCore` is a
proper suffix of the output. -/
theorem toDigitsCore_eq_append (b : Nat) : ∀ (fuel n : Nat) (ds : List Char),
    ∃ pre : List Char, pre ≠ [] ∧
      Nat.toDigitsCore b (fuel + 1) n ds = pre ++ ds := by
  intro fuel
  induction fuel with
  | zero =>
    intro n ds
    refine ⟨[Nat.digitChar (n % b)], by simp, ?_⟩
    rw [toDigitsCore_succ]
    split <;> rfl
  | succ f ih =>
    intro n ds
    by_cases h : n / b = 0
    · refine ⟨[Nat.digitChar (n % b)], by simp, ?_⟩
      rw [toDigitsCore_succ, if_pos h]
      rfl
    · obtain ⟨pre, hne, heq⟩ := ih (n / b) (Nat.digitChar (n % b) :: ds)
      refine ⟨pre ++ [Nat.digitChar (n % b)], by simp, ?_⟩
      rw [toDigitsCore_succ, if_neg h, heq, List.append_assoc,
        List.singleton_append]

/-- Decimal rendering of a positive number is never the string `"0"`. -/
theorem Nat_repr_succ_ne_zero (n : Nat) : Nat.repr (n + 1) ≠ "0" := by
  intro h
  have hlist : Nat.toDigitsCore 10 (n + 1 + 1) (n + 1) [] = ['0'] := by
    have hd := congrArg String.data h
    simpa [Nat.repr, Nat.toDigits, List.asString] using hd
  rw [toDigitsCore_succ] at hlist
  by_cases hq : (n + 1) / 10 = 0
  · rw [if_pos hq] at hlist
    have hsmall : n + 1 < 10 := by omega
    have hmod : (n + 1) % 10 = n + 1 := Nat.mod_eq_of_lt hsmall
    rw [hmod] at hlist
    have hdig : Nat.digitChar (n + 1) = '0' := List.singleton_injective hlist
    have hn : n < 9 := by omega
    interval_cases n <;> exact absurd hdig (by decide)
  · rw [if_neg hq] at hlist
    obtain ⟨pre, hne, heq⟩ :=
      toDigitsCore_eq_append 10 n ((n + 1) / 10) [Nat.digitChar ((n + 1) % 10)]
    rw [heq] at hlist
    have hlen := congrArg List.length hlist
    simp at hlen
    exact hne hlen

/-- C1, counterexample: with the normalized query postcode `""` (the
normalization of `" "` or `""`) and a payload of one record whose
`Postcode` field is the empty string, the record satisfies the claim's
predicate (its normalized postcode vacuously contains the query as a
substring) yet the coordinator's filter drops it, because the code's
truthiness guard rejects an empty raw `Postcode`. -/
theorem coordFilter_claim_counterexample :
    pyNormalize "" = "" ∧
    claimKeep "" { Postcode := some "" } ∧
    (asyncUpdateData (coordinatorInit "")
        (.success [{ Postcode := some "" }])).2 = Except.ok [] := by
  refine ⟨rfl, ⟨"", rfl, by decide⟩, rfl⟩

/-- C1, amended: for every raw payload array and every normalized
postcode P, the filtered list produced by the coordinator's update
contains exactly the records whose `Postcode` field is present and
non-empty and whose normalized `Postcode` contains P as a substring,
in their original relative order (stated as equality with the
order-preserving `List.filter` of the specification predicate). -/
theorem coordFilter_exactly_matching (co : Coordinator) (raw : List Record) :
    (asyncUpdateData co (.success raw)).2
        = Except.ok (raw.filter (fun r => decide (specKeep co.postcode r))) ∧
      (asyncUpdateData co (.success raw)).1.lastKnownData
        = raw.filter (fun r => decide (specKeep co.postcode r)) := by
  have hfilter : coordFilter co.postcode raw
      = raw.filter (fun r => decide (specKeep co.postcode r)) := by
    rw [coordFilter_eq_filter]
    exact List.filter_congr (fun r _ => recordMatches_eq_specKeep co.postcode r)
  exact ⟨by simp [asyncUpdateData, hfilter], by simp [asyncUpdateData, hfilter]⟩

/-- C2: whenever a fetch cycle fails with any of the modelled exceptions
(timeout, client error, JSON decode error, or any other exception raised
before completion), the coordinator state — in particular
`_last_known_data` — is exactly as before the cycle, and the cycle's
result is a single `UpdateFailed` signal carrying the handler's message;
no data is returned. -/
theorem asyncUpdateData_failure_preserves (co : Coordinator) (e : FetchError) :
    (asyncUpdateData co (.failure e)).1 = co ∧
    (asyncUpdateData co (.failure e)).2 = Except.error (failureMsg e) :=
  ⟨rfl, rfl⟩

/-- C3, counterexample: a per-index sensor for index 0 while the current
fetched set is the (successfully fetched) empty list: no record exists
at index 0, yet `available` returns `True`, because the truthiness guard
`self.coordinator.data` sends the empty list to the
`last_update_success` fallback. -/
theorem available_stale_index_counterexample :
    ([] : List Record).length ≤ 0 ∧
    PowerCutBaseSensor.available (some []) true (some 0) = true := by
  exact ⟨le_rfl, rfl⟩

/-- C3, amended: a per-index sensor is available iff the last refresh
succeeded and, whenever the current set is truthy (present and
non-empty), its index is still within the set; when the current set is
empty or absent, availability equals the last-update-success flag even
though no record exists at the sensor's index. -/
theorem available_characterization (data : Option (List Record))
    (success : Bool) (i : Nat) :
    PowerCutBaseSensor.available data success (some i) =
      (success && (!listTruthy data || decide (i < (data.getD []).length))) := by
  cases data with
  | none => simp [PowerCutBaseSensor.available, listTruthy]
  | some l =>
    cases l with
    | nil => simp [PowerCutBaseSensor.available, listTruthy]
    | cons a t =>
      simp [PowerCutBaseSensor.available, listTruthy, Bool.and_comm]

/-- C4, counterexample: a state with non-empty last-known data (so the
latest-event sensor is available) but a failed most recent refresh: the
count sensor, whose `available` is inherited from the base class with no
index, reports unavailable — so the count view is not available
"whenever any last-known data exists regardless of refresh success". -/
theorem count_available_counterexample :
    LatestPowerCutEventSensor.available [{}] = true ∧
    PowerCutBaseSensor.available (some [{}]) false none = false :=
  ⟨rfl, rfl⟩

/-- C4, amended: the latest-event view is available exactly when some
last-known data exists, independent of the refresh flag; the count view
(a base sensor with no power-cut index) is available exactly when the
most recent refresh succeeded. -/
theorem latest_and_count_availability (lastKnown : List Record)
    (data : Option (List Record)) (success : Bool) :
    (LatestPowerCutEventSensor.available lastKnown = true ↔ lastKnown ≠ []) ∧
    PowerCutBaseSensor.available data success none = success := by
  constructor
  · cases lastKnown <;> simp [LatestPowerCutEventSensor.available]
  · rfl

/-- C5: for an empty last-known set the latest-event state is `None`;
for a non-empty one it is the `Reference` of a record of the set whose
`LoggedTime` key (missing compares as `""`) is maximal under
lexicographic string comparison; and on the specification's example the
record logged at `"2024-01-02T09:00:00Z"` is selected. -/
theorem LatestPowerCutEventSensor_state_spec :
    LatestPowerCutEventSensor.state [] = none ∧
    (∀ l : List Record, l ≠ [] →
      ∃ m, m ∈ l ∧ LatestPowerCutEventSensor.state l = m.Reference ∧
        ∀ s ∈ l, (loggedKey s).data ≤ (loggedKey m).data) ∧
    LatestPowerCutEventSensor.state
      [{ Reference := some "R1", LoggedTime := some "2024-01-01T09:00:00Z" },
        { Reference := some "R2", LoggedTime := some "2024-01-02T09:00:00Z" }]
      = some "R2" := by
  refine ⟨rfl, ?_, by decide⟩
  intro l hl
  match l with
  | x :: xs =>
    refine ⟨pyMaxByLoggedTime x xs, pyMaxBy_mem x xs, rfl, ?_⟩
    intro s hs
    exact not_lt.mp (pyMaxBy_not_lt x xs s hs)

/-- Witness for C5 at the one-element list containing the all-absent
record. -/
theorem LatestPowerCutEventSensor_state_spec_witness :
    (∃ m, m ∈ [({} : Record)] ∧
      LatestPowerCutEventSensor.state [({} : Record)] = m.Reference ∧
      ∀ s ∈ [({} : Record)], (loggedKey s).data ≤ (loggedKey m).data) :=
  LatestPowerCutEventSensor_state_spec.2.1 [({} : Record)] (by decide)

/-- C6: at every in-range index both timestamp views compute the shared
projection `parseEmit` of their raw field, and that projection returns
`None` on a missing field, on an empty field, and on a field that does
not parse as ISO-8601 after `Z` is replaced by `+00:00`; on a parseable
field it returns the re-emitted normalized ISO-8601 string, and in
particular `"2024-01-01T10:00:00Z"` round-trips to
`"2024-01-01T10:00:00+00:00"`. -/
theorem timestamp_sensors_spec :
    (∀ (l : List Record) (i : Nat), i < l.length →
      PowerCutStartTimeSensor.state (some l) i
          = parseEmit (l.getD i {}).LoggedTime ∧
        PowerCutEstimatedRestorationSensor.state (some l) i
          = parseEmit (l.getD i {}).EstimatedTimeTillResolution) ∧
    parseEmit none = none ∧
    parseEmit (some "") = none ∧
    (∀ ts : String, fromisoformat (String.mk (replaceZ ts.data)) = none →
      parseEmit (some ts) = none) ∧
    (∀ (ts : String) (dt : PyDateTime),
      fromisoformat (String.mk (replaceZ ts.data)) = some dt →
      parseEmit (some ts) = some dt.isoformat) ∧
    parseEmit (some "2024-01-01T10:00:00Z")
      = some "2024-01-01T10:00:00+00:00" := by
  refine ⟨?_, rfl, rfl, ?_, ?_, by decide⟩
  · intro l i h
    rw [PowerCutStartTimeSensor.state, PowerCutEstimatedRestorationSensor.state,
      currentRecord_in_bounds l i h]
    exact ⟨rfl, rfl⟩
  · intro ts hnone
    by_cases hts : ts = ""
    · subst hts; rfl
    · simp [parseEmit, hts, hnone]
  · intro ts dt hsome
    by_cases hts : ts = ""
    · subst hts
      simp [fromisoformat, parse4, String.mk, replaceZ] at hsome
    · simp [parseEmit, hts, hsome]

/-- Witness for C6 at the sample record: index 0 is in range of the
one-element list, and the concrete parse of its timestamp succeeds. -/
theorem timestamp_sensors_spec_witness :
    (0 < ([recZ] : List Record).length) ∧
    (PowerCutStartTimeSensor.state (some [recZ]) 0
        = parseEmit ([recZ].getD 0 {}).LoggedTime ∧
      PowerCutEstimatedRestorationSensor.state (some [recZ]) 0
        = parseEmit ([recZ].getD 0 {}).EstimatedTimeTillResolution) :=
  ⟨by decide, timestamp_sensors_spec.1 [recZ] 0 (by decide)⟩

/-- C7, counterexample: for an in-range index the start-time view does
not return the raw `LoggedTime` field: the sample record's raw field is
`"2024-01-01T10:00:00Z"` but the view's state is the normalized
`"2024-01-01T10:00:00+00:00"`. -/
theorem per_index_raw_field_counterexample :
    recZ.LoggedTime = some "2024-01-01T10:00:00Z" ∧
    PowerCutStartTimeSensor.state (some [recZ]) 0
      = some "2024-01-01T10:00:00+00:00" ∧
    PowerCutStartTimeSensor.state (some [recZ]) 0 ≠ recZ.LoggedTime := by
  refine ⟨rfl, by decide, by decide⟩

/-- C7, amended: every per-index view is `None` whenever the current set
is absent, empty, or no longer reaches the index — regardless of any
earlier cycle, since the views are functions of the current set alone;
at an in-range index the five plain views return the corresponding raw
field of the record at that index, while the two timestamp views return
its parsed-and-normalized timestamp (or `None` when parsing fails). -/
theorem per_index_views_spec :
    (∀ (data : Option (List Record)) (i : Nat), (data.getD []).length ≤ i →
      PowerCutReferenceSensor.state data i = none ∧
        PowerCutAffectedCustomersSensor.state data i = none ∧
        PowerCutStatusSensor.state data i = none ∧
        PowerCutReasonSensor.state data i = none ∧
        PowerCutNatureSensor.state data i = none ∧
        PowerCutStartTimeSensor.state data i = none ∧
        PowerCutEstimatedRestorationSensor.state data i = none) ∧
    (∀ (l : List Record) (i : Nat), i < l.length →
      PowerCutReferenceSensor.state (some l) i = (l.getD i {}).Reference ∧
        PowerCutAffectedCustomersSensor.state (some l) i
          = (l.getD i {}).TotalConfirmedPowerCut ∧
        PowerCutStatusSensor.state (some l) i
          = (l.getD i {}).CustomerStageSequenceMessage ∧
        PowerCutReasonSensor.state (some l) i = (l.getD i {}).Reason ∧
        PowerCutNatureSensor.state (some l) i = (l.getD i {}).NatureOfOutage ∧
        PowerCutStartTimeSensor.state (some l) i
          = parseEmit (l.getD i {}).LoggedTime ∧
        PowerCutEstimatedRestorationSensor.state (some l) i
          = parseEmit (l.getD i {}).EstimatedTimeTillResolution) := by
  constructor
  · intro data i h
    rw [PowerCutReferenceSensor.state, PowerCutAffectedCustomersSensor.state,
      PowerCutStatusSensor.state, PowerCutReasonSensor.state,
      PowerCutNatureSensor.state, PowerCutStartTimeSensor.state,
      PowerCutEstimatedRestorationSensor.state,
      currentRecord_out_of_bounds data i h]
    exact ⟨rfl, rfl, rfl, rfl, rfl, rfl, rfl⟩
  · intro l i h
    rw [PowerCutReferenceSensor.state, PowerCutAffectedCustomersSensor.state,
      PowerCutStatusSensor.state, PowerCutReasonSensor.state,
      PowerCutNatureSensor.state, PowerCutStartTimeSensor.state,
      PowerCutEstimatedRestorationSensor.state,
      currentRecord_in_bounds l i h]
    exact ⟨rfl, rfl, rfl, rfl, rfl, rfl, rfl⟩

/-- Witness for C7: the out-of-range branch at index 1 of the
one-element list, whose views all report `None`. -/
theorem per_index_views_spec_witness :
    (((some [recZ] : Option (List Record)).getD []).length ≤ 1) ∧
    (PowerCutReferenceSensor.state (some [recZ]) 1 = none ∧
      PowerCutAffectedCustomersSensor.state (some [recZ]) 1 = none ∧
      PowerCutStatusSensor.state (some [recZ]) 1 = none ∧
      PowerCutReasonSensor.state (some [recZ]) 1 = none ∧
      PowerCutNatureSensor.state (some [recZ]) 1 = none ∧
      PowerCutStartTimeSensor.state (some [recZ]) 1 = none ∧
      PowerCutEstimatedRestorationSensor.state (some [recZ]) 1 = none) :=
  ⟨by decide, per_index_views_spec.1 (some [recZ]) 1 (by decide)⟩

/-- C8: for a present set the count view is the decimal string of the
set's length, for an absent set it is `"0"`, and it equals `"0"` exactly
when the set is absent or empty. -/
theorem PowerCutCountSensor_state_spec :
    (∀ l : List Record, PowerCutCountSensor.state (some l) = Nat.repr l.length) ∧
    PowerCutCountSensor.state none = "0" ∧
    (∀ data : Option (List Record),
      PowerCutCountSensor.state data = "0" ↔ data = none ∨ data = some []) := by
  have hsome : ∀ l : List Record,
      PowerCutCountSensor.state (some l) = Nat.repr l.length := by
    intro l
    cases l with
    | nil => rfl
    | cons a t => rfl
  refine ⟨hsome, rfl, ?_⟩
  intro data
  cases data with
  | none => simp [PowerCutCountSensor.state]
  | some l =>
    cases l with
    | nil => simp [PowerCutCountSensor.state]
    | cons a t =>
      rw [hsome]
      simp only [List.length_cons]
      constructor
      · intro h
        exact absurd h (Nat_repr_succ_ne_zero t.length)
      · intro h
        rcases h with h | h <;> simp at h

/-- C9: the config flow reports the field-scoped `invalid_postcode`
error exactly when the submitted postcode's normalized length is below 5
or above 7, for every probe outcome; lengths 5 to 7 inclusive pass the
check. -/
theorem asyncStepUser_invalid_postcode (input : String) (probe : ProbeOutcome) :
    ("postcode", "invalid_postcode") ∈ asyncStepUserErrors input probe ↔
      (pyNormalize input).length < MIN_POSTCODE_LENGTH ∨
        MAX_POSTCODE_LENGTH < (pyNormalize input).length := by
  unfold asyncStepUserErrors
  by_cases h : (pyNormalize input).length < MIN_POSTCODE_LENGTH ∨
      MAX_POSTCODE_LENGTH < (pyNormalize input).length
  · simp [h]
  · rw [if_neg h]
    simp only [h, iff_false]
    cases probe with
    | response status =>
      by_cases hs : status ≠ 200 <;> simp [hs]
    | clientError => simp
    | timeoutError => simp
    | unexpectedError => simp

/-- C10: a record whose `Postcode` field is missing, null, or the empty
string is never an element of the coordinator's filtered list, for every
payload and every query postcode — including the empty query, for which
the substring check alone would vacuously succeed. -/
theorem coordFilter_excludes_blank_postcode (P : String) (data : List Record)
    (r : Record) (h : r.Postcode = none ∨ r.Postcode = some "") :
    r ∉ coordFilter P data := by
  rw [coordFilter_eq_filter]
  intro hmem
  have hmatch := (List.mem_filter.mp hmem).2
  rcases h with h | h <;> simp [recordMatches, h] at hmatch

/-- Witness for C10: under the empty query postcode, the record with the
empty `Postcode` is excluded from its own one-record payload. -/
theorem coordFilter_excludes_blank_postcode_witness :
    (({ Postcode := some "" } : Record).Postcode = none ∨
      ({ Postcode := some "" } : Record).Postcode = some "") ∧
    ({ Postcode := some "" } : Record)
      ∉ coordFilter "" [{ Postcode := some "" }] :=
  ⟨Or.inr rfl,
    coordFilter_excludes_blank_postcode "" [{ Postcode := some "" }] _
      (Or.inr rfl)⟩

end NPG
